import Mathlib

/-!
Verification development for the face-capture pose sequencing engine of
`src/src/components/CapturePage/index.tsx` (the canonical auto-capture
variant of `CapturePage`).

The embedding translates, line by line:
  * `determineFaceDirection` (source lines 104-159) over exact rational
    coordinates.  JS `number` division is modelled by rational division;
    the only divergence is at a zero denominator, where JS produces
    `Infinity`/`NaN` and Lean's convention gives `q / 0 = 0`.  Every
    concrete input used below that has a zero denominator also has a zero
    numerator (JS `0/0 = NaN`; all comparisons against `NaN` are false),
    and on those inputs the branch outcomes of the model and of the JS
    code coincide, as noted at the definitions concerned.
  * `updateStabilityCount` (lines 161-172) as `pushTrim`/`observeCount`.
  * `captureImage` (lines 174-240) including the mirrored canvas draw
    (lines 191-196), the step advance (lines 214-225), the counter reset
    (lines 227-232) and the catch branch (lines 234-237).
  * the single-face / non-single-face tick of `detectFaces`
    (lines 242-378), with the cooldown check of lines 298-300.
A session execution is a fold of `tick` over a list of tick inputs.
After the step reaches `complete`, the component unmounts the video
element and the effect of lines 380-402 cancels the scheduled frame, so
a tick in the `complete` state changes nothing; `tick` returns the state
unchanged there.
-/

namespace FaceCapture

/-- A 2D landmark point (pixel coordinates), exact rationals. -/
structure Pt where
  x : ℚ
  y : ℚ

/-- The 68-point landmark set of a single detected face: source indexes
`landmarks.positions[i]`. -/
structure FaceLandmarks68 where
  positions : Nat → Pt

/-- The classified pose: `'front' | 'right' | 'left'` (source line 10). -/
inductive FaceDirection where
  | front
  | right
  | left
deriving DecidableEq

/-- The sequencer step: `'center' | 'right' | 'left' | 'complete'` (source line 14). -/
inductive Step where
  | center
  | right
  | left
  | complete
deriving DecidableEq

/-- Captured-image position `'center' | 'right' | 'left'` (types.ts). -/
inductive Position where
  | center
  | right
  | left
deriving DecidableEq

/-- Source line 117-120: midpoint of outer (36) and inner (39) left-eye
corners; only the x coordinate is ever used downstream. -/
def leftEyeCenterX (lm : FaceLandmarks68) : ℚ :=
  ((lm.positions 36).x + (lm.positions 39).x) / 2

/-- Source line 122-125: midpoint of outer (45) and inner (42) right-eye
corners. -/
def rightEyeCenterX (lm : FaceLandmarks68) : ℚ :=
  ((lm.positions 45).x + (lm.positions 42).x) / 2

/-- Source line 128. -/
def faceCenterX (lm : FaceLandmarks68) : ℚ :=
  (leftEyeCenterX lm + rightEyeCenterX lm) / 2

/-- Source line 129: `Math.abs(rightEyeCenter.x - leftEyeCenter.x)`. -/
def eyeDistance (lm : FaceLandmarks68) : ℚ :=
  |rightEyeCenterX lm - leftEyeCenterX lm|

/-- Source line 132: `(noseTip.x - faceCenterX) / eyeDistance`
(point 30 is the nose tip, line 108). -/
def noseDeviation (lm : FaceLandmarks68) : ℚ :=
  ((lm.positions 30).x - faceCenterX lm) / eyeDistance lm

/-- Source line 135: midpoint of mouth corners 48 and 54. -/
def mouthCenterX (lm : FaceLandmarks68) : ℚ :=
  ((lm.positions 48).x + (lm.positions 54).x) / 2

/-- Source line 136. -/
def mouthDeviation (lm : FaceLandmarks68) : ℚ :=
  (mouthCenterX lm - faceCenterX lm) / eyeDistance lm

/-- Source line 139. -/
def leftEyeWidth (lm : FaceLandmarks68) : ℚ :=
  |(lm.positions 36).x - (lm.positions 39).x|

/-- Source line 140. -/
def rightEyeWidth (lm : FaceLandmarks68) : ℚ :=
  |(lm.positions 45).x - (lm.positions 42).x|

/-- Source line 141: `leftEyeWidth / rightEyeWidth`. -/
def eyeRatioVal (lm : FaceLandmarks68) : ℚ :=
  leftEyeWidth lm / rightEyeWidth lm

/-- Source line 148: `(noseDeviation + mouthDeviation) / 2`. -/
def avgDeviation (lm : FaceLandmarks68) : ℚ :=
  (noseDeviation lm + mouthDeviation lm) / 2

/-- Source lines 143-158.  `FRONT_THRESHOLD = 0.1`,
`PROFILE_THRESHOLD = 0.2`; the eye-ratio bounds are `0.8`/`1.25` in the
front branch and `1.4`/`0.6` in the profile branches.  All decimal
literals are exact rationals. -/
def determineFaceDirection (lm : FaceLandmarks68) : FaceDirection :=
  if |avgDeviation lm| < (0.1 : ℚ) ∧ (0.8 : ℚ) < eyeRatioVal lm ∧ eyeRatioVal lm < (1.25 : ℚ) then
    FaceDirection.front
  else if (0.2 : ℚ) < avgDeviation lm ∨ (1.4 : ℚ) < eyeRatioVal lm then
    FaceDirection.right
  else if avgDeviation lm < -(0.2 : ℚ) ∨ eyeRatioVal lm < (0.6 : ℚ) then
    FaceDirection.left
  else
    FaceDirection.front

/-- Uniform scaling of every landmark coordinate by a factor `c`. -/
def scaleLm (c : ℚ) (lm : FaceLandmarks68) : FaceLandmarks68 :=
  ⟨fun i => ⟨c * (lm.positions i).x, c * (lm.positions i).y⟩⟩

/-- Source lines 163-166: push the new direction, drop the oldest entry
when the window exceeds 10 entries. -/
def pushTrim (w : List FaceDirection) (d : FaceDirection) : List FaceDirection :=
  if 10 < (w ++ [d]).length then (w ++ [d]).tail else w ++ [d]

/-- Source lines 168-171: the stability count reported after observing
`d` is the number of entries of the updated window equal to `d`. -/
def observeCount (w : List FaceDirection) (d : FaceDirection) : ℕ :=
  ((pushTrim w d).filter (fun e => e = d)).length

/-- Repeated observation: `n` successive observations of the same direction `d`. -/
def iterObserve (d : FaceDirection) : ℕ → List FaceDirection → List FaceDirection
  | 0, w => w
  | n + 1, w => iterObserve d n (pushTrim w d)

/-- A video frame: width, height, and a pixel sampling function. -/
structure VideoFrame where
  width : ℕ
  height : ℕ
  pix : ℕ → ℕ → ℕ

/-- Source lines 191-196: `scale(-1, 1)` followed by
`translate(-canvas.width, 0)` maps the source pixel column `x` onto the
destination column `width - 1 - x`: the canvas receives the horizontally
mirrored frame, which is what `toDataURL` then encodes. -/
def mirrorFrame (v : VideoFrame) : VideoFrame :=
  { v with pix := fun x y => v.pix (v.width - 1 - x) y }

/-- A captured image: the encoded frame content and its position
(`types.ts`: `{ dataUrl, position }`); the model keeps the frame that
was drawn to the canvas in place of its JPEG string. -/
structure CapturedImage where
  data : VideoFrame
  position : Position

/-- Source lines 200-204. -/
def positionMap : FaceDirection → Position
  | FaceDirection.front => Position.center
  | FaceDirection.right => Position.right
  | FaceDirection.left => Position.left

/-- Source lines 291-292 and 348-349: the target direction of the
current step (`'complete'` falls into the final `: 'left'` branch of the
ternary chain, exactly as in the source). -/
def stepTarget : Step → FaceDirection
  | Step.center => FaceDirection.front
  | Step.right => FaceDirection.right
  | _ => FaceDirection.left

/-- Source lines 214-220: the linear step advance. -/
def nextStep : Step → Step
  | Step.center => Step.right
  | Step.right => Step.left
  | Step.left => Step.complete
  | Step.complete => Step.complete

/-- The session state: the component state and refs that the capture
logic reads or writes.  `completeCalls` records the argument of every
`onComplete` invocation. -/
structure SessionState where
  currentStep : Step
  capturedImages : List CapturedImage
  isCapturing : Bool
  error : Option String
  stableCount : ℕ
  window : List FaceDirection
  lastCaptureTime : ℤ
  completeCalls : List (List CapturedImage)

/-- Initial state (source lines 14-29): step `center`, no images, not
capturing, no error, empty stability window, `lastCaptureTimeRef = 0`. -/
def initState : SessionState :=
  ⟨Step.center, [], false, none, 0, [], 0, []⟩

/-- Source lines 298-300: `timeSinceLastCapture > 1500`. -/
def cooldownPassed (now last : ℤ) : Bool :=
  decide (1500 < now - last)

/-- Source lines 174-240.  The re-entrancy guard of line 175 rejects the
call while a capture is in flight.  On success: mirrored frame appended
with the position mapped from the direction, step advanced, counters and
error reset, cooldown timestamp refreshed, and `onComplete` fired when
the `left` step finishes (lines 219-225).  If the encode step fails
(`encodeOk = false`, i.e. the canvas/`toDataURL` path throws), only the
error message is set (lines 234-237); the lines after the throw point,
including the append, the advance and the timestamp refresh, never run. -/
def captureImage (s : SessionState) (dir : FaceDirection) (vid : VideoFrame)
    (now : ℤ) (encodeOk : Bool) : SessionState :=
  if s.isCapturing then s
  else if encodeOk then
    let imgs := s.capturedImages ++ [⟨mirrorFrame vid, positionMap dir⟩]
    { s with
      capturedImages := imgs
      currentStep := nextStep s.currentStep
      completeCalls :=
        if s.currentStep = Step.left then s.completeCalls ++ [imgs] else s.completeCalls
      stableCount := 0
      window := []
      lastCaptureTime := now
      error := none
      isCapturing := false }
  else
    { s with error := some "Failed to capture image. Please try again.", isCapturing := false }

/-- One tick of the detection loop, as seen by the capture logic:
either no face, several faces, or exactly one face together with the
video frame, the current clock value and whether the encode step of a
capture started on this tick would succeed. -/
inductive TickInput where
  | noFace
  | multiFace
  | oneFace (lm : FaceLandmarks68) (vid : VideoFrame) (now : ℤ) (encodeOk : Bool)

/-- Source lines 242-378, restricted to the state-changing effects.
Line 243 skips the tick while a capture is in progress.  Once the step
is `complete` the component renders the completion screen without the
video element and the effect of lines 380-402 cancels the loop, so no
further tick changes the state.  A single-face tick classifies the
landmarks, updates the stability window (lines 286-288), and fires the
auto-capture (lines 290-304) iff the direction matches the target, the
updated stability count is at least 8, the cooldown has passed and the
step is not `complete`.  A zero- or multi-face tick resets the
stability state (lines 327-333). -/
def tick (s : SessionState) (i : TickInput) : SessionState :=
  if s.isCapturing then s
  else if s.currentStep = Step.complete then s
  else
    match i with
    | TickInput.noFace => { s with stableCount := 0, window := [] }
    | TickInput.multiFace => { s with stableCount := 0, window := [] }
    | TickInput.oneFace lm vid now encodeOk =>
      let dir := determineFaceDirection lm
      let c2 := observeCount s.window dir
      let s1 := { s with window := pushTrim s.window dir, stableCount := c2 }
      if dir = stepTarget s.currentStep ∧ 8 ≤ c2 ∧
          cooldownPassed now s.lastCaptureTime = true ∧ s.currentStep ≠ Step.complete then
        captureImage s1 dir vid now encodeOk
      else
        s1

/-- A session execution: fold the tick over a list of tick inputs. -/
def run (s : SessionState) (events : List TickInput) : SessionState :=
  events.foldl tick s

/-- The image positions that must have been captured in each step. -/
def stepImagePositions : Step → List Position
  | Step.center => []
  | Step.right => [Position.center]
  | Step.left => [Position.center, Position.right]
  | Step.complete => [Position.center, Position.right, Position.left]

/-- The session invariant tying the captured images, the in-flight flag,
the completion calls and the window capacity to the current step. -/
def Inv (s : SessionState) : Prop :=
  s.capturedImages.map (fun im => im.position) = stepImagePositions s.currentStep ∧
  s.isCapturing = false ∧
  (s.currentStep = Step.complete → s.completeCalls = [s.capturedImages]) ∧
  (s.currentStep ≠ Step.complete → s.completeCalls = []) ∧
  s.window.length ≤ 10

/-- A synthetic frontal frame: eye centers at x = 0 and x = 100, nose
and mouth on the center line, balanced eye widths. -/
def frontLm : FaceLandmarks68 :=
  ⟨fun i =>
    if i = 30 then ⟨50, 5⟩
    else if i = 36 then ⟨-1, 0⟩
    else if i = 39 then ⟨1, 0⟩
    else if i = 45 then ⟨101, 0⟩
    else if i = 42 then ⟨99, 0⟩
    else if i = 48 then ⟨40, 8⟩
    else if i = 54 then ⟨60, 8⟩
    else ⟨0, 0⟩⟩

/-- A synthetic right-turned frame: nose and mouth shifted so that both
deviations are `0.4`. -/
def rightLm : FaceLandmarks68 :=
  ⟨fun i =>
    if i = 30 then ⟨90, 5⟩
    else if i = 36 then ⟨-1, 0⟩
    else if i = 39 then ⟨1, 0⟩
    else if i = 45 then ⟨101, 0⟩
    else if i = 42 then ⟨99, 0⟩
    else if i = 48 then ⟨80, 8⟩
    else if i = 54 then ⟨100, 8⟩
    else ⟨0, 0⟩⟩

/-- A synthetic left-turned frame: both deviations are `-0.4`. -/
def leftLm : FaceLandmarks68 :=
  ⟨fun i =>
    if i = 30 then ⟨10, 5⟩
    else if i = 36 then ⟨-1, 0⟩
    else if i = 39 then ⟨1, 0⟩
    else if i = 45 then ⟨101, 0⟩
    else if i = 42 then ⟨99, 0⟩
    else if i = 48 then ⟨0, 8⟩
    else if i = 54 then ⟨20, 8⟩
    else ⟨0, 0⟩⟩

/-- A degenerate frame: both eye centers at x = 2 (`eyeDistance = 0`),
nose and mouth also at x = 2, left eye twice as wide as the right one
(`eyeRatio = 2`).  In JS the deviations are `0/0 = NaN` here, every
comparison against them is false, and the classifier falls through to
the `eyeRatio > 1.4` test; the rational model takes the same branches
on this input because the `0/0 = 0` deviations fail the front window
`0.8 < 2 < 1.25` as well. -/
def degLm : FaceLandmarks68 :=
  ⟨fun i =>
    if i = 30 then ⟨2, 5⟩
    else if i = 36 then ⟨0, 0⟩
    else if i = 39 then ⟨4, 0⟩
    else if i = 45 then ⟨3, 0⟩
    else if i = 42 then ⟨1, 0⟩
    else if i = 48 then ⟨1, 8⟩
    else if i = 54 then ⟨3, 8⟩
    else ⟨0, 0⟩⟩

/-- A frame with combined offset `0.18` — beyond the spec's STRONG
threshold `0.15` but below the code's `PROFILE_THRESHOLD = 0.2` — and a
perfectly balanced eye ratio. -/
def cexLm4 : FaceLandmarks68 :=
  ⟨fun i =>
    if i = 30 then ⟨68, 5⟩
    else if i = 36 then ⟨-1, 0⟩
    else if i = 39 then ⟨1, 0⟩
    else if i = 45 then ⟨101, 0⟩
    else if i = 42 then ⟨99, 0⟩
    else if i = 48 then ⟨58, 8⟩
    else if i = 54 then ⟨78, 8⟩
    else ⟨0, 0⟩⟩

/-- A frame with combined offset `0.16`, also beyond `0.15` but below
`0.2`, with balanced eye ratio. -/
def cexLm9 : FaceLandmarks68 :=
  ⟨fun i =>
    if i = 30 then ⟨66, 5⟩
    else if i = 36 then ⟨-1, 0⟩
    else if i = 39 then ⟨1, 0⟩
    else if i = 45 then ⟨101, 0⟩
    else if i = 42 then ⟨99, 0⟩
    else if i = 48 then ⟨56, 8⟩
    else if i = 54 then ⟨76, 8⟩
    else ⟨0, 0⟩⟩

/-- A blank video frame. -/
def vid0 : VideoFrame := ⟨640, 480, fun _ _ => 0⟩

/-- A tiny 2-pixel-wide frame whose pixel value equals its column. -/
def vid1 : VideoFrame := ⟨2, 1, fun x _ => x⟩

/-- A state one stable observation away from firing a capture on a
frontal frame. -/
def readyState : SessionState :=
  { initState with window := List.replicate 9 FaceDirection.front }

/-- A state marked as having a capture in flight. -/
def busyState : SessionState :=
  { initState with isCapturing := true }

/-- The scripted end-to-end stream: 8 stable frontal ticks, 8 right, 8
left, clocks spaced 2000 ms apart, every encode succeeding. -/
def demoScript : List TickInput :=
  (List.range 24).map (fun k =>
    TickInput.oneFace
      (if k < 8 then frontLm else if k < 16 then rightLm else leftLm)
      vid0 (2000 * ((k : ℤ) + 1)) true)

/-! ### Equation lemmas for `captureImage` and `tick` -/

theorem captureImage_busy (s : SessionState) (dir : FaceDirection) (vid : VideoFrame)
    (now : ℤ) (ok : Bool) (h : s.isCapturing = true) :
    captureImage s dir vid now ok = s := by
  simp [captureImage, h]

theorem captureImage_ok (s : SessionState) (dir : FaceDirection) (vid : VideoFrame)
    (now : ℤ) (h : s.isCapturing = false) :
    captureImage s dir vid now true =
      { s with
        capturedImages := s.capturedImages ++ [⟨mirrorFrame vid, positionMap dir⟩]
        currentStep := nextStep s.currentStep
        completeCalls :=
          if s.currentStep = Step.left then
            s.completeCalls ++ [s.capturedImages ++ [⟨mirrorFrame vid, positionMap dir⟩]]
          else s.completeCalls
        stableCount := 0
        window := []
        lastCaptureTime := now
        error := none
        isCapturing := false } := by
  simp [captureImage, h]

theorem captureImage_fail (s : SessionState) (dir : FaceDirection) (vid : VideoFrame)
    (now : ℤ) (h : s.isCapturing = false) :
    captureImage s dir vid now false =
      { s with error := some "Failed to capture image. Please try again.",
               isCapturing := false } := by
  simp [captureImage, h]

theorem tick_busy (s : SessionState) (i : TickInput) (h : s.isCapturing = true) :
    tick s i = s := by
  simp [tick, h]

theorem tick_complete (s : SessionState) (i : TickInput)
    (h : s.currentStep = Step.complete) : tick s i = s := by
  by_cases hb : s.isCapturing
  · simp [tick, hb]
  · simp [tick, hb, h]

theorem tick_noFace (s : SessionState) (h1 : s.isCapturing = false)
    (h2 : s.currentStep ≠ Step.complete) :
    tick s TickInput.noFace = { s with stableCount := 0, window := [] } := by
  simp [tick, h1, h2]

theorem tick_multiFace (s : SessionState) (h1 : s.isCapturing = false)
    (h2 : s.currentStep ≠ Step.complete) :
    tick s TickInput.multiFace = { s with stableCount := 0, window := [] } := by
  simp [tick, h1, h2]

theorem tick_oneFace_fire (s : SessionState) (lm : FaceLandmarks68) (vid : VideoFrame)
    (now : ℤ) (ok : Bool) (h1 : s.isCapturing = false)
    (hg : determineFaceDirection lm = stepTarget s.currentStep ∧
      8 ≤ observeCount s.window (determineFaceDirection lm) ∧
      cooldownPassed now s.lastCaptureTime = true ∧ s.currentStep ≠ Step.complete) :
    tick s (TickInput.oneFace lm vid now ok) =
      captureImage
        { s with window := pushTrim s.window (determineFaceDirection lm)
                 stableCount := observeCount s.window (determineFaceDirection lm) }
        (determineFaceDirection lm) vid now ok := by
  have h2 := hg.2.2.2
  simp only [tick]
  rw [if_neg (by simp [h1]), if_neg h2, if_pos hg]

theorem tick_oneFace_nofire (s : SessionState) (lm : FaceLandmarks68) (vid : VideoFrame)
    (now : ℤ) (ok : Bool) (h1 : s.isCapturing = false)
    (h2 : s.currentStep ≠ Step.complete)
    (hg : ¬(determineFaceDirection lm = stepTarget s.currentStep ∧
      8 ≤ observeCount s.window (determineFaceDirection lm) ∧
      cooldownPassed now s.lastCaptureTime = true ∧ s.currentStep ≠ Step.complete)) :
    tick s (TickInput.oneFace lm vid now ok) =
      { s with window := pushTrim s.window (determineFaceDirection lm)
               stableCount := observeCount s.window (determineFaceDirection lm) } := by
  simp only [tick]
  rw [if_neg (by simp [h1]), if_neg h2, if_neg hg]

/-! ### Stability-window lemmas -/

theorem pushTrim_length (w : List FaceDirection) (d : FaceDirection)
    (h : w.length ≤ 10) : (pushTrim w d).length ≤ 10 := by
  unfold pushTrim
  split
  · simp only [List.length_tail, List.length_append, List.length_singleton]
    omega
  · next hlt =>
    simp only [List.length_append, List.length_singleton] at hlt ⊢
    omega

theorem pushTrim_getLast (w : List FaceDirection) (d : FaceDirection) :
    (pushTrim w d).getLast? = some d := by
  unfold pushTrim
  split
  · next hlt =>
    cases w with
    | nil => simp at hlt
    | cons a t => simp [List.getLast?_concat]
  · exact List.getLast?_concat w

theorem iterObserve_eq_drop (d : FaceDirection) :
    ∀ (n : ℕ) (w : List FaceDirection), w.length ≤ 10 →
      iterObserve d n w = (w ++ List.replicate n d).drop (w.length + n - 10) := by
  intro n
  induction n with
  | zero =>
    intro w h
    simp [iterObserve, Nat.sub_eq_zero_of_le h]
  | succ n ih =>
    intro w h
    rw [show iterObserve d (n + 1) w = iterObserve d n (pushTrim w d) from rfl]
    rw [ih (pushTrim w d) (pushTrim_length w d h)]
    rcases Nat.lt_or_ge w.length 10 with hlt | hge
    · have hpt : pushTrim w d = w ++ [d] := by
        unfold pushTrim
        rw [if_neg (by simp only [List.length_append, List.length_singleton]; omega)]
      rw [hpt]
      rw [List.append_assoc]
      have hrep : [d] ++ List.replicate n d = List.replicate (n + 1) d := by
        simp [List.replicate_succ]
      rw [hrep]
      congr 1
      simp only [List.length_append, List.length_singleton]
      omega
    · have hlen : w.length = 10 := le_antisymm h hge
      cases w with
      | nil => simp at hlen
      | cons a t =>
        have htlen : t.length = 9 := by simpa using hlen
        have hpt : pushTrim (a :: t) d = t ++ [d] := by
          unfold pushTrim
          rw [if_pos (by simp only [List.length_append, List.length_cons,
            List.length_singleton]; omega)]
          simp
        rw [hpt]
        rw [List.append_assoc]
        have hrep : [d] ++ List.replicate n d = List.replicate (n + 1) d := by
          simp [List.replicate_succ]
        rw [hrep]
        have hL : (t ++ [d]).length + n - 10 = n := by
          simp only [List.length_append, List.length_singleton]
          omega
        have hR : (a :: t).length + (n + 1) - 10 = n + 1 := by
          simp only [List.length_cons]
          omega
        rw [hL, hR]
        rw [show (a :: t) ++ List.replicate (n + 1) d =
          a :: (t ++ List.replicate (n + 1) d) from rfl]
        rw [List.drop_succ_cons]

theorem iterObserve_stable (d : FaceDirection) (n : ℕ) (hn : 10 ≤ n)
    (w : List FaceDirection) (h : w.length ≤ 10) :
    iterObserve d n w = List.replicate 10 d := by
  rw [iterObserve_eq_drop d n w h]
  rw [show w.length + n - 10 = w.length + (n - 10) by omega]
  rw [List.drop_append, List.drop_replicate]
  congr 1
  omega

theorem filter_replicate_self (d : FaceDirection) (n : ℕ) :
    ((List.replicate n d).filter (fun e => e = d)).length = n := by
  have hf : (List.replicate n d).filter (fun e => e = d) = List.replicate n d := by
    refine List.filter_eq_self.mpr ?_
    intro a ha
    simp [List.eq_of_mem_replicate ha]
  rw [hf, List.length_replicate]

/-! ### The session invariant -/

theorem inv_init : Inv initState := by
  refine ⟨rfl, rfl, ?_, fun _ => rfl, by simp [initState]⟩
  intro h
  simp [initState] at h

theorem captureImage_inv (s : SessionState) (dir : FaceDirection) (vid : VideoFrame)
    (now : ℤ) (ok : Bool) (h : Inv s) (hdir : dir = stepTarget s.currentStep)
    (hstep : s.currentStep ≠ Step.complete) : Inv (captureImage s dir vid now ok) := by
  obtain ⟨himg, hcap, hcc, hnc, hwin⟩ := h
  cases ok with
  | false =>
    rw [captureImage_fail s dir vid now hcap]
    exact ⟨himg, rfl, hcc, hnc, hwin⟩
  | true =>
    rw [captureImage_ok s dir vid now hcap]
    refine ⟨?_, rfl, ?_, ?_, by simp⟩
    · dsimp only
      rw [List.map_append, himg, hdir]
      revert himg hstep
      cases s.currentStep <;>
        simp [stepImagePositions, nextStep, stepTarget, positionMap]
    · intro hnext
      dsimp only at hnext ⊢
      have hleft : s.currentStep = Step.left := by
        revert hnext hstep
        cases s.currentStep <;> simp [nextStep]
      simp [hleft, hnc hstep]
    · intro hne
      dsimp only at hne ⊢
      have hnl : s.currentStep ≠ Step.left := by
        intro hl
        exact hne (by simp [hl, nextStep])
      simp [hnl, hnc hstep]

theorem tick_inv (s : SessionState) (i : TickInput) (h : Inv s) : Inv (tick s i) := by
  obtain ⟨himg, hcap, hcc, hnc, hwin⟩ := h
  by_cases hstep : s.currentStep = Step.complete
  · rw [tick_complete s i hstep]
    exact ⟨himg, hcap, hcc, hnc, hwin⟩
  · cases i with
    | noFace =>
      rw [tick_noFace s hcap hstep]
      exact ⟨himg, hcap, hcc, hnc, by simp⟩
    | multiFace =>
      rw [tick_multiFace s hcap hstep]
      exact ⟨himg, hcap, hcc, hnc, by simp⟩
    | oneFace lm vid now ok =>
      by_cases hg : determineFaceDirection lm = stepTarget s.currentStep ∧
          8 ≤ observeCount s.window (determineFaceDirection lm) ∧
          cooldownPassed now s.lastCaptureTime = true ∧ s.currentStep ≠ Step.complete
      · rw [tick_oneFace_fire s lm vid now ok hcap hg]
        have hs1 : Inv { s with window := pushTrim s.window (determineFaceDirection lm)
                                stableCount := observeCount s.window (determineFaceDirection lm) } :=
          ⟨himg, hcap, hcc, hnc, pushTrim_length s.window _ hwin⟩
        exact captureImage_inv _ _ _ _ _ hs1 hg.1 hstep
      · rw [tick_oneFace_nofire s lm vid now ok hcap hstep hg]
        exact ⟨himg, hcap, hcc, hnc, pushTrim_length s.window _ hwin⟩

theorem run_inv (events : List TickInput) : Inv (run initState events) := by
  suffices h : ∀ (es : List TickInput) (s : SessionState), Inv s → Inv (run s es) from
    h events initState inv_init
  intro es
  induction es with
  | nil => exact fun s hs => hs
  | cons e es ih => exact fun s hs => ih (tick s e) (tick_inv s e hs)

theorem tick_oneFace_fire_ok (s : SessionState) (lm : FaceLandmarks68) (vid : VideoFrame)
    (now : ℤ) (h1 : s.isCapturing = false)
    (hg : determineFaceDirection lm = stepTarget s.currentStep ∧
      8 ≤ observeCount s.window (determineFaceDirection lm) ∧
      cooldownPassed now s.lastCaptureTime = true ∧ s.currentStep ≠ Step.complete) :
    tick s (TickInput.oneFace lm vid now true) =
      { s with
        capturedImages := s.capturedImages ++
          [⟨mirrorFrame vid, positionMap (determineFaceDirection lm)⟩]
        currentStep := nextStep s.currentStep
        completeCalls :=
          if s.currentStep = Step.left then
            s.completeCalls ++ [s.capturedImages ++
              [⟨mirrorFrame vid, positionMap (determineFaceDirection lm)⟩]]
          else s.completeCalls
        stableCount := 0
        window := []
        lastCaptureTime := now
        error := none
        isCapturing := false } := by
  rw [tick_oneFace_fire s lm vid now true h1 hg]
  exact captureImage_ok _ _ _ _ h1

theorem tick_oneFace_fire_fail (s : SessionState) (lm : FaceLandmarks68) (vid : VideoFrame)
    (now : ℤ) (h1 : s.isCapturing = false)
    (hg : determineFaceDirection lm = stepTarget s.currentStep ∧
      8 ≤ observeCount s.window (determineFaceDirection lm) ∧
      cooldownPassed now s.lastCaptureTime = true ∧ s.currentStep ≠ Step.complete) :
    tick s (TickInput.oneFace lm vid now false) =
      { s with
        window := pushTrim s.window (determineFaceDirection lm)
        stableCount := observeCount s.window (determineFaceDirection lm)
        error := some "Failed to capture image. Please try again."
        isCapturing := false } := by
  rw [tick_oneFace_fire s lm vid now false h1 hg]
  exact captureImage_fail _ _ _ _ h1

theorem cooldownPassed_iff (now last : ℤ) :
    cooldownPassed now last = true ↔ 1500 < now - last := by
  simp [cooldownPassed]

/-! ### Scale invariance of the classifier metrics -/

theorem leftEyeCenterX_scale (c : ℚ) (lm : FaceLandmarks68) :
    leftEyeCenterX (scaleLm c lm) = c * leftEyeCenterX lm := by
  simp only [leftEyeCenterX, scaleLm]
  ring

theorem rightEyeCenterX_scale (c : ℚ) (lm : FaceLandmarks68) :
    rightEyeCenterX (scaleLm c lm) = c * rightEyeCenterX lm := by
  simp only [rightEyeCenterX, scaleLm]
  ring

theorem faceCenterX_scale (c : ℚ) (lm : FaceLandmarks68) :
    faceCenterX (scaleLm c lm) = c * faceCenterX lm := by
  simp only [faceCenterX, leftEyeCenterX_scale, rightEyeCenterX_scale]
  ring

theorem eyeDistance_scale (c : ℚ) (hc : 0 < c) (lm : FaceLandmarks68) :
    eyeDistance (scaleLm c lm) = c * eyeDistance lm := by
  simp only [eyeDistance, leftEyeCenterX_scale, rightEyeCenterX_scale]
  rw [← mul_sub, abs_mul, abs_of_pos hc]

theorem noseDeviation_scale (c : ℚ) (hc : 0 < c) (lm : FaceLandmarks68) :
    noseDeviation (scaleLm c lm) = noseDeviation lm := by
  have hx : ((scaleLm c lm).positions 30).x = c * (lm.positions 30).x := rfl
  simp only [noseDeviation, hx, faceCenterX_scale, eyeDistance_scale c hc]
  rw [← mul_sub, mul_div_mul_left _ _ (ne_of_gt hc)]

theorem mouthCenterX_scale (c : ℚ) (lm : FaceLandmarks68) :
    mouthCenterX (scaleLm c lm) = c * mouthCenterX lm := by
  simp only [mouthCenterX, scaleLm]
  ring

theorem mouthDeviation_scale (c : ℚ) (hc : 0 < c) (lm : FaceLandmarks68) :
    mouthDeviation (scaleLm c lm) = mouthDeviation lm := by
  simp only [mouthDeviation, mouthCenterX_scale, faceCenterX_scale, eyeDistance_scale c hc]
  rw [← mul_sub, mul_div_mul_left _ _ (ne_of_gt hc)]

theorem avgDeviation_scale (c : ℚ) (hc : 0 < c) (lm : FaceLandmarks68) :
    avgDeviation (scaleLm c lm) = avgDeviation lm := by
  simp only [avgDeviation, noseDeviation_scale c hc, mouthDeviation_scale c hc]

theorem leftEyeWidth_scale (c : ℚ) (hc : 0 < c) (lm : FaceLandmarks68) :
    leftEyeWidth (scaleLm c lm) = c * leftEyeWidth lm := by
  simp only [leftEyeWidth, scaleLm]
  rw [← mul_sub, abs_mul, abs_of_pos hc]

theorem rightEyeWidth_scale (c : ℚ) (hc : 0 < c) (lm : FaceLandmarks68) :
    rightEyeWidth (scaleLm c lm) = c * rightEyeWidth lm := by
  simp only [rightEyeWidth, scaleLm]
  rw [← mul_sub, abs_mul, abs_of_pos hc]

theorem eyeRatioVal_scale (c : ℚ) (hc : 0 < c) (lm : FaceLandmarks68) :
    eyeRatioVal (scaleLm c lm) = eyeRatioVal lm := by
  simp only [eyeRatioVal, leftEyeWidth_scale c hc, rightEyeWidth_scale c hc]
  rw [mul_div_mul_left _ _ (ne_of_gt hc)]

theorem determineFaceDirection_scale (c : ℚ) (hc : 0 < c) (lm : FaceLandmarks68) :
    determineFaceDirection (scaleLm c lm) = determineFaceDirection lm := by
  unfold determineFaceDirection
  rw [avgDeviation_scale c hc, eyeRatioVal_scale c hc]

/-! ### Branch characterizations of the classifier -/

theorem determine_front_branch (lm : FaceLandmarks68)
    (h : |avgDeviation lm| < (0.1 : ℚ) ∧ (0.8 : ℚ) < eyeRatioVal lm ∧
      eyeRatioVal lm < (1.25 : ℚ)) :
    determineFaceDirection lm = FaceDirection.front := by
  unfold determineFaceDirection
  rw [if_pos h]

theorem determine_right_branch (lm : FaceLandmarks68)
    (h : (0.2 : ℚ) < avgDeviation lm ∨ (1.4 : ℚ) < eyeRatioVal lm) :
    determineFaceDirection lm = FaceDirection.right := by
  unfold determineFaceDirection
  have hn1 : ¬(|avgDeviation lm| < (0.1 : ℚ) ∧ (0.8 : ℚ) < eyeRatioVal lm ∧
      eyeRatioVal lm < (1.25 : ℚ)) := by
    rintro ⟨ha, -, hb⟩
    rw [abs_lt] at ha
    rcases h with h | h
    · linarith [ha.2]
    · linarith
  rw [if_neg hn1, if_pos h]

theorem determine_left_branch (lm : FaceLandmarks68)
    (h : avgDeviation lm < -(0.2 : ℚ) ∨ eyeRatioVal lm < (0.6 : ℚ))
    (hn2 : ¬((0.2 : ℚ) < avgDeviation lm ∨ (1.4 : ℚ) < eyeRatioVal lm)) :
    determineFaceDirection lm = FaceDirection.left := by
  unfold determineFaceDirection
  have hn1 : ¬(|avgDeviation lm| < (0.1 : ℚ) ∧ (0.8 : ℚ) < eyeRatioVal lm ∧
      eyeRatioVal lm < (1.25 : ℚ)) := by
    rintro ⟨ha, hb, -⟩
    rw [abs_lt] at ha
    rcases h with h | h
    · linarith [ha.1]
    · linarith
  rw [if_neg hn1, if_neg hn2, if_pos h]

theorem determine_default_branch (lm : FaceLandmarks68)
    (hn1 : ¬(|avgDeviation lm| < (0.1 : ℚ) ∧ (0.8 : ℚ) < eyeRatioVal lm ∧
      eyeRatioVal lm < (1.25 : ℚ)))
    (hn2 : ¬((0.2 : ℚ) < avgDeviation lm ∨ (1.4 : ℚ) < eyeRatioVal lm))
    (hn3 : ¬(avgDeviation lm < -(0.2 : ℚ) ∨ eyeRatioVal lm < (0.6 : ℚ))) :
    determineFaceDirection lm = FaceDirection.front := by
  unfold determineFaceDirection
  rw [if_neg hn1, if_neg hn2, if_neg hn3]

/-! ### Claim theorems -/

/-- Claim C1: in every session execution the captured-image positions are
exactly the step-indexed prefix of `[center, right, left]` — empty at step
`center`, `[center]` at `right`, `[center, right]` at `left`, and the full
list at `complete` — so no position is skipped, repeated, or appended out
of step order; and a tick arriving while a capture is in flight is
rejected with no transition and no appended image. -/
theorem claim1_capture_sequence (events : List TickInput) :
    (run initState events).capturedImages.map (fun im => im.position) =
      stepImagePositions (run initState events).currentStep ∧
    (∃ n, n ≤ 3 ∧ stepImagePositions (run initState events).currentStep =
      List.take n [Position.center, Position.right, Position.left]) ∧
    (∀ (s : SessionState) (i : TickInput), s.isCapturing = true → tick s i = s) := by
  refine ⟨(run_inv events).1, ?_, fun s i h => tick_busy s i h⟩
  cases (run initState events).currentStep
  · exact ⟨0, by omega, rfl⟩
  · exact ⟨1, by omega, rfl⟩
  · exact ⟨2, by omega, rfl⟩
  · exact ⟨3, by omega, rfl⟩

theorem claim1_capture_sequence_witness :
    busyState.isCapturing = true ∧ tick busyState TickInput.noFace = busyState :=
  ⟨rfl, (claim1_capture_sequence []).2.2 busyState TickInput.noFace rfl⟩

/-- Claim C2: when the sequencer reaches `complete`, the completion
callback has been invoked exactly once, with exactly the captured list
whose positions are `[center, right, left]`; before `complete` it has
never been invoked; and `complete` is terminal — no tick changes the
state afterwards. -/
theorem claim2_complete_once (events : List TickInput) :
    ((run initState events).currentStep = Step.complete →
      (run initState events).completeCalls = [(run initState events).capturedImages] ∧
      (run initState events).capturedImages.map (fun im => im.position) =
        [Position.center, Position.right, Position.left]) ∧
    ((run initState events).currentStep ≠ Step.complete →
      (run initState events).completeCalls = []) ∧
    (∀ i : TickInput, (run initState events).currentStep = Step.complete →
      tick (run initState events) i = run initState events) := by
  obtain ⟨himg, -, hcc, hnc, -⟩ := run_inv events
  refine ⟨fun hc => ⟨hcc hc, ?_⟩, hnc, fun i hc => tick_complete _ i hc⟩
  rw [himg, hc]
  rfl

theorem claim2_complete_once_witness :
    (run initState demoScript).currentStep = Step.complete ∧
    (run initState demoScript).completeCalls =
      [(run initState demoScript).capturedImages] ∧
    (run initState demoScript).capturedImages.map (fun im => im.position) =
      [Position.center, Position.right, Position.left] := by
  have hc : (run initState demoScript).currentStep = Step.complete := by
    with_unfolding_all decide
  exact ⟨hc, ((claim2_complete_once demoScript).1 hc).1,
    ((claim2_complete_once demoScript).1 hc).2⟩

/-- Claim C3: on a single-face tick (with the encode step succeeding),
a capture happens — one image is appended — if and only if the classified
pose equals the current step's target, the post-observation stability
count is at least 8, the cooldown gate permits, and the step is not
`complete`. -/
theorem claim3_auto_capture_iff (s : SessionState) (lm : FaceLandmarks68)
    (vid : VideoFrame) (now : ℤ) (hc : s.isCapturing = false) :
    ((tick s (TickInput.oneFace lm vid now true)).capturedImages.length =
        s.capturedImages.length + 1) ↔
      (determineFaceDirection lm = stepTarget s.currentStep ∧
       8 ≤ observeCount s.window (determineFaceDirection lm) ∧
       1500 < now - s.lastCaptureTime ∧
       s.currentStep ≠ Step.complete) := by
  by_cases hstep : s.currentStep = Step.complete
  · rw [tick_complete s _ hstep]
    constructor
    · intro h
      omega
    · rintro ⟨-, -, -, h4⟩
      exact absurd hstep h4
  · by_cases hg : determineFaceDirection lm = stepTarget s.currentStep ∧
        8 ≤ observeCount s.window (determineFaceDirection lm) ∧
        cooldownPassed now s.lastCaptureTime = true ∧ s.currentStep ≠ Step.complete
    · rw [tick_oneFace_fire_ok s lm vid now hc hg]
      constructor
      · intro _
        exact ⟨hg.1, hg.2.1, (cooldownPassed_iff now s.lastCaptureTime).mp hg.2.2.1,
          hg.2.2.2⟩
      · intro _
        simp
    · rw [tick_oneFace_nofire s lm vid now true hc hstep hg]
      constructor
      · intro h
        dsimp only at h
        omega
      · intro hr
        exact absurd ⟨hr.1, hr.2.1,
          (cooldownPassed_iff now s.lastCaptureTime).mpr hr.2.2.1, hr.2.2.2⟩ hg

theorem claim3_auto_capture_iff_witness :
    readyState.isCapturing = false ∧
    (tick readyState (TickInput.oneFace frontLm vid0 2000 true)).capturedImages.length =
      readyState.capturedImages.length + 1 :=
  ⟨rfl, (claim3_auto_capture_iff readyState frontLm vid0 2000 rfl).mpr
    (by with_unfolding_all decide)⟩

/-- Claim C4 counterexample: the frame `cexLm4` has combined offset
`0.18`, beyond the spec's STRONG threshold `0.15`, with a moderate eye
ratio (inside `[0.7, 1.4]`), yet the classifier returns `front` — so the
classifier does not apply the spec's claimed thresholds, under which a
strong combined offset must yield a profile pose. -/
theorem claim4_spec_thresholds_cex :
    avgDeviation cexLm4 = 9 / 50 ∧ (0.15 : ℚ) < 9 / 50 ∧
    (0.7 : ℚ) ≤ eyeRatioVal cexLm4 ∧ eyeRatioVal cexLm4 ≤ (1.4 : ℚ) ∧
    determineFaceDirection cexLm4 = FaceDirection.front := by
  with_unfolding_all decide

/-- Claim C4 amended: the classifier applies the constants actually in
the code — `FRONT_THRESHOLD = 0.1`, `PROFILE_THRESHOLD = 0.2`, and the
eye-ratio bounds `0.8`/`1.25` (front window) and `1.4`/`0.6` (profile
extremes) — in precedence order: balanced offset and eye ratio give
`front`; else a strong positive offset or high eye ratio gives `right`;
else a strong negative offset or low eye ratio gives `left`; else
`front`.  No faceSkew metric is computed. -/
theorem claim4_code_thresholds (lm : FaceLandmarks68) :
    ((|avgDeviation lm| < (0.1 : ℚ) ∧ (0.8 : ℚ) < eyeRatioVal lm ∧
        eyeRatioVal lm < (1.25 : ℚ)) →
      determineFaceDirection lm = FaceDirection.front) ∧
    (((0.2 : ℚ) < avgDeviation lm ∨ (1.4 : ℚ) < eyeRatioVal lm) →
      determineFaceDirection lm = FaceDirection.right) ∧
    ((avgDeviation lm < -(0.2 : ℚ) ∨ eyeRatioVal lm < (0.6 : ℚ)) →
      ¬((0.2 : ℚ) < avgDeviation lm ∨ (1.4 : ℚ) < eyeRatioVal lm) →
      determineFaceDirection lm = FaceDirection.left) ∧
    (¬(|avgDeviation lm| < (0.1 : ℚ) ∧ (0.8 : ℚ) < eyeRatioVal lm ∧
        eyeRatioVal lm < (1.25 : ℚ)) →
      ¬((0.2 : ℚ) < avgDeviation lm ∨ (1.4 : ℚ) < eyeRatioVal lm) →
      ¬(avgDeviation lm < -(0.2 : ℚ) ∨ eyeRatioVal lm < (0.6 : ℚ)) →
      determineFaceDirection lm = FaceDirection.front) :=
  ⟨determine_front_branch lm, determine_right_branch lm, determine_left_branch lm,
    determine_default_branch lm⟩

theorem claim4_code_thresholds_witness :
    (0.2 : ℚ) < avgDeviation rightLm ∧
    determineFaceDirection rightLm = FaceDirection.right :=
  ⟨by with_unfolding_all decide,
   (claim4_code_thresholds rightLm).2.1 (Or.inl (by with_unfolding_all decide))⟩

/-- Claim C5: the stability tracker keeps the window at length ≤ 10
(both at the `pushTrim` level and along any session execution); after an
observation the reported count is the number of window entries equal to
the most recently observed pose (which is the window's last entry);
after at least 10 identical consecutive observations the window is 10
copies of that pose and the count is 10; and a zero- or multi-face tick
clears the window and resets the count to 0. -/
theorem claim5_stability_window :
    (∀ events : List TickInput, (run initState events).window.length ≤ 10) ∧
    (∀ (w : List FaceDirection) (d : FaceDirection), w.length ≤ 10 →
      (pushTrim w d).length ≤ 10) ∧
    (∀ (w : List FaceDirection) (d : FaceDirection),
      (pushTrim w d).getLast? = some d ∧
      observeCount w d = ((pushTrim w d).filter (fun e => e = d)).length) ∧
    (∀ (d : FaceDirection) (n : ℕ), 10 ≤ n → ∀ w : List FaceDirection, w.length ≤ 10 →
      iterObserve d n w = List.replicate 10 d ∧
      ((iterObserve d n w).filter (fun e => e = d)).length = 10) ∧
    (∀ s : SessionState, s.isCapturing = false → s.currentStep ≠ Step.complete →
      (tick s TickInput.noFace).window = [] ∧
      (tick s TickInput.noFace).stableCount = 0 ∧
      (tick s TickInput.multiFace).window = [] ∧
      (tick s TickInput.multiFace).stableCount = 0) := by
  refine ⟨fun events => (run_inv events).2.2.2.2, pushTrim_length,
    fun w d => ⟨pushTrim_getLast w d, rfl⟩, fun d n hn w hw => ?_, fun s h1 h2 => ?_⟩
  · have h := iterObserve_stable d n hn w hw
    refine ⟨h, ?_⟩
    rw [h]
    exact filter_replicate_self d 10
  · rw [tick_noFace s h1 h2, tick_multiFace s h1 h2]
    exact ⟨rfl, rfl, rfl, rfl⟩

theorem claim5_stability_window_witness :
    iterObserve FaceDirection.front 12 [] = List.replicate 10 FaceDirection.front ∧
    ((iterObserve FaceDirection.front 12 []).filter
      (fun e => e = FaceDirection.front)).length = 10 :=
  claim5_stability_window.2.2.2.1 FaceDirection.front 12 (by omega) [] (by simp)

/-- Claim C6 counterexample: the frame `degLm` has zero eye distance
(degenerate geometry), yet the classifier still produces the usable
classification `right` (via the eye-ratio branch), and a single-face
tick carrying it appends to the stability window — stability count 1 —
instead of behaving like a no-face tick, which clears the window and
resets the count to 0.  The frame is therefore not excluded from
classification. -/
theorem claim6_degenerate_cex :
    eyeDistance degLm = 0 ∧ determineFaceDirection degLm = FaceDirection.right ∧
    (tick initState (TickInput.oneFace degLm vid0 2000 true)).window =
      [FaceDirection.right] ∧
    (tick initState (TickInput.oneFace degLm vid0 2000 true)).stableCount = 1 ∧
    (tick initState TickInput.noFace).window = [] ∧
    (tick initState TickInput.noFace).stableCount = 0 := by
  with_unfolding_all decide

/-- Claim C6 amended: the classifier has no degenerate-geometry guard.
For a zero-eye-distance frame whose nose and mouth centers coincide with
the face center (so that the offset metrics degenerate to `0/0`, where
the rational model and the JS `NaN`-comparison semantics take the same
branches), the classifier still returns a pose decided by the eye-ratio
rules (`> 1.4` → right, `< 0.6` → left, else front), and a single-face
tick carrying such a frame updates the stability window with that pose
exactly like any other single-face tick, rather than being treated as a
no-face tick. -/
theorem claim6_degenerate_amended (lm : FaceLandmarks68) (s : SessionState)
    (vid : VideoFrame) (now : ℤ) (ok : Bool)
    (_h0 : eyeDistance lm = 0)
    (hn : (lm.positions 30).x = faceCenterX lm)
    (hm : mouthCenterX lm = faceCenterX lm) :
    determineFaceDirection lm =
      (if (1.4 : ℚ) < eyeRatioVal lm then FaceDirection.right
       else if eyeRatioVal lm < (0.6 : ℚ) then FaceDirection.left
       else FaceDirection.front) ∧
    (s.isCapturing = false → s.currentStep ≠ Step.complete →
      observeCount s.window (determineFaceDirection lm) < 8 →
      (tick s (TickInput.oneFace lm vid now ok)).window =
        pushTrim s.window (determineFaceDirection lm) ∧
      (tick s (TickInput.oneFace lm vid now ok)).stableCount =
        observeCount s.window (determineFaceDirection lm)) := by
  have havg : avgDeviation lm = 0 := by
    unfold avgDeviation noseDeviation mouthDeviation
    rw [hn, hm, sub_self, zero_div]
    norm_num
  constructor
  · unfold determineFaceDirection
    rw [havg]
    by_cases h1 : (0.8 : ℚ) < eyeRatioVal lm ∧ eyeRatioVal lm < (1.25 : ℚ)
    · rw [if_pos ⟨by norm_num, h1.1, h1.2⟩,
        if_neg (show ¬(1.4 : ℚ) < eyeRatioVal lm by linarith [h1.2]),
        if_neg (show ¬eyeRatioVal lm < (0.6 : ℚ) by linarith [h1.1])]
    · rw [if_neg (fun hcon => h1 ⟨hcon.2.1, hcon.2.2⟩)]
      by_cases h2 : (1.4 : ℚ) < eyeRatioVal lm
      · rw [if_pos (Or.inr h2), if_pos h2]
      · rw [if_neg (show ¬((0.2 : ℚ) < 0 ∨ (1.4 : ℚ) < eyeRatioVal lm) by
            rintro (hx | hx)
            · norm_num at hx
            · exact h2 hx),
          if_neg h2]
        by_cases h3 : eyeRatioVal lm < (0.6 : ℚ)
        · rw [if_pos (Or.inr h3), if_pos h3]
        · rw [if_neg (show ¬((0 : ℚ) < -(0.2 : ℚ) ∨ eyeRatioVal lm < (0.6 : ℚ)) by
              rintro (hx | hx)
              · norm_num at hx
              · exact h3 hx),
            if_neg h3]
  · intro h1 h2 hlt
    have hg : ¬(determineFaceDirection lm = stepTarget s.currentStep ∧
        8 ≤ observeCount s.window (determineFaceDirection lm) ∧
        cooldownPassed now s.lastCaptureTime = true ∧ s.currentStep ≠ Step.complete) := by
      rintro ⟨-, h8, -, -⟩
      omega
    rw [tick_oneFace_nofire s lm vid now ok h1 h2 hg]
    exact ⟨rfl, rfl⟩

theorem claim6_degenerate_amended_witness :
    determineFaceDirection degLm =
      (if (1.4 : ℚ) < eyeRatioVal degLm then FaceDirection.right
       else if eyeRatioVal degLm < (0.6 : ℚ) then FaceDirection.left
       else FaceDirection.front) ∧
    (tick initState (TickInput.oneFace degLm vid0 3000 true)).window =
      pushTrim initState.window (determineFaceDirection degLm) := by
  have h := claim6_degenerate_amended degLm initState vid0 3000 true
    (by with_unfolding_all decide) (by with_unfolding_all decide)
    (by with_unfolding_all decide)
  exact ⟨h.1, (h.2 rfl (by with_unfolding_all decide) (by with_unfolding_all decide)).1⟩

/-- Claim C7 counterexample: at the exact cooldown boundary
(`now − lastCaptureTimestamp = 1500`) the gate denies capture — the code
uses a strict `timeSinceLastCapture > 1500` — whereas the claim asserts
that the boundary instant permits. -/
theorem claim7_boundary_cex :
    (1500 : ℤ) - 0 = 1500 ∧ cooldownPassed 1500 0 = false := by
  with_unfolding_all decide

/-- Claim C7 amended: the cooldown gate permits exactly when
`now − lastCaptureTimestamp` strictly exceeds 1500 ms and denies at and
within the boundary; the last-capture timestamp is reset only by a tick
that actually appends an image (a successful capture), in which case it
becomes that tick's clock value — no other tick touches it. -/
theorem claim7_cooldown_amended :
    (∀ now last : ℤ, cooldownPassed now last = true ↔ 1500 < now - last) ∧
    (∀ now last : ℤ, now - last ≤ 1500 → cooldownPassed now last = false) ∧
    (∀ (s : SessionState) (i : TickInput),
      (tick s i).capturedImages = s.capturedImages →
      (tick s i).lastCaptureTime = s.lastCaptureTime) ∧
    (∀ (s : SessionState) (lm : FaceLandmarks68) (vid : VideoFrame) (now : ℤ) (ok : Bool),
      (tick s (TickInput.oneFace lm vid now ok)).capturedImages ≠ s.capturedImages →
      (tick s (TickInput.oneFace lm vid now ok)).lastCaptureTime = now) := by
  refine ⟨fun now last => cooldownPassed_iff now last, ?_, ?_, ?_⟩
  · intro now last h
    simp only [cooldownPassed, decide_eq_false_iff_not]
    omega
  · intro s i himg
    by_cases hb : s.isCapturing
    · rw [tick_busy s i hb]
    · by_cases hcs : s.currentStep = Step.complete
      · rw [tick_complete s i hcs]
      · cases i with
        | noFace => rw [tick_noFace s (by simpa using hb) hcs]
        | multiFace => rw [tick_multiFace s (by simpa using hb) hcs]
        | oneFace lm vid now ok =>
          by_cases hg : determineFaceDirection lm = stepTarget s.currentStep ∧
              8 ≤ observeCount s.window (determineFaceDirection lm) ∧
              cooldownPassed now s.lastCaptureTime = true ∧ s.currentStep ≠ Step.complete
          · cases ok with
            | false => rw [tick_oneFace_fire_fail s lm vid now (by simpa using hb) hg]
            | true =>
              rw [tick_oneFace_fire_ok s lm vid now (by simpa using hb) hg] at himg ⊢
              have hlen := congrArg List.length himg
              simp at hlen
          · rw [tick_oneFace_nofire s lm vid now ok (by simpa using hb) hcs hg]
  · intro s lm vid now ok hne
    by_cases hb : s.isCapturing
    · rw [tick_busy s _ hb] at hne
      exact absurd rfl hne
    · by_cases hcs : s.currentStep = Step.complete
      · rw [tick_complete s _ hcs] at hne
        exact absurd rfl hne
      · by_cases hg : determineFaceDirection lm = stepTarget s.currentStep ∧
            8 ≤ observeCount s.window (determineFaceDirection lm) ∧
            cooldownPassed now s.lastCaptureTime = true ∧ s.currentStep ≠ Step.complete
        · cases ok with
          | false =>
            rw [tick_oneFace_fire_fail s lm vid now (by simpa using hb) hg] at hne
            exact absurd rfl hne
          | true =>
            rw [tick_oneFace_fire_ok s lm vid now (by simpa using hb) hg]
        · rw [tick_oneFace_nofire s lm vid now ok (by simpa using hb) hcs hg] at hne
          exact absurd rfl hne

theorem claim7_cooldown_amended_witness :
    (1500 : ℤ) < 1501 - 0 ∧ cooldownPassed 1501 0 = true :=
  ⟨by omega, (claim7_cooldown_amended.1 1501 0).mpr (by omega)⟩

/-- Claim C8: if the encode step of a capture fails, the session state
is unchanged except for error reporting: no image is appended, the step
is not advanced, the error message is set, the cooldown timestamp is not
refreshed, no completion call is made, the in-flight flag is released,
the session is not terminated (the step is still not `complete`, so the
loop keeps running), and the stability observation of the tick is
retained so capture can be retried on subsequent ticks. -/
theorem claim8_capture_failure (s : SessionState) (lm : FaceLandmarks68)
    (vid : VideoFrame) (now : ℤ) (hc : s.isCapturing = false)
    (hfire : determineFaceDirection lm = stepTarget s.currentStep ∧
      8 ≤ observeCount s.window (determineFaceDirection lm) ∧
      1500 < now - s.lastCaptureTime ∧ s.currentStep ≠ Step.complete) :
    (tick s (TickInput.oneFace lm vid now false)).capturedImages = s.capturedImages ∧
    (tick s (TickInput.oneFace lm vid now false)).currentStep = s.currentStep ∧
    (tick s (TickInput.oneFace lm vid now false)).error =
      some "Failed to capture image. Please try again." ∧
    (tick s (TickInput.oneFace lm vid now false)).lastCaptureTime = s.lastCaptureTime ∧
    (tick s (TickInput.oneFace lm vid now false)).completeCalls = s.completeCalls ∧
    (tick s (TickInput.oneFace lm vid now false)).isCapturing = false ∧
    (tick s (TickInput.oneFace lm vid now false)).currentStep ≠ Step.complete ∧
    (tick s (TickInput.oneFace lm vid now false)).window =
      pushTrim s.window (determineFaceDirection lm) ∧
    (tick s (TickInput.oneFace lm vid now false)).stableCount =
      observeCount s.window (determineFaceDirection lm) := by
  have hg : determineFaceDirection lm = stepTarget s.currentStep ∧
      8 ≤ observeCount s.window (determineFaceDirection lm) ∧
      cooldownPassed now s.lastCaptureTime = true ∧ s.currentStep ≠ Step.complete :=
    ⟨hfire.1, hfire.2.1, (cooldownPassed_iff now s.lastCaptureTime).mpr hfire.2.2.1,
      hfire.2.2.2⟩
  rw [tick_oneFace_fire_fail s lm vid now hc hg]
  exact ⟨rfl, rfl, rfl, rfl, rfl, rfl, hfire.2.2.2, rfl, rfl⟩

theorem claim8_capture_failure_witness :
    (tick readyState (TickInput.oneFace frontLm vid0 2000 false)).capturedImages =
      readyState.capturedImages ∧
    (tick readyState (TickInput.oneFace frontLm vid0 2000 false)).error =
      some "Failed to capture image. Please try again." := by
  have h := claim8_capture_failure readyState frontLm vid0 2000 rfl
    (by with_unfolding_all decide)
  exact ⟨h.1, h.2.2.1⟩

/-- Claim C9 counterexample: the frame `cexLm9` has combined offset
`0.16` — beyond the spec's STRONG profile threshold `0.15` — yet the
classifier returns `front`, not the correspondingly signed profile pose. -/
theorem claim9_strong_cex :
    avgDeviation cexLm9 = 4 / 25 ∧ (0.15 : ℚ) < 4 / 25 ∧
    determineFaceDirection cexLm9 = FaceDirection.front := by
  with_unfolding_all decide

/-- Claim C9 amended: with the code's actual profile threshold `0.2`, a
combined offset beyond `+0.2` always yields `right`; a combined offset
beyond `−0.2` yields `left` provided the eye ratio does not exceed `1.4`
(otherwise the higher-precedence eye-ratio rule yields `right`); and the
classifier's output is invariant under uniform positive scaling of all
landmark coordinates. -/
theorem claim9_offset_scale (lm : FaceLandmarks68) :
    ((0.2 : ℚ) < avgDeviation lm → determineFaceDirection lm = FaceDirection.right) ∧
    (avgDeviation lm < -(0.2 : ℚ) → eyeRatioVal lm ≤ (1.4 : ℚ) →
      determineFaceDirection lm = FaceDirection.left) ∧
    (∀ c : ℚ, 0 < c → determineFaceDirection (scaleLm c lm) = determineFaceDirection lm) := by
  refine ⟨fun h => determine_right_branch lm (Or.inl h), fun ha hr => ?_,
    fun c hc => determineFaceDirection_scale c hc lm⟩
  refine determine_left_branch lm (Or.inl ha) ?_
  rintro (h | h)
  · linarith
  · linarith

theorem claim9_offset_scale_witness :
    avgDeviation leftLm < -(0.2 : ℚ) ∧
    determineFaceDirection leftLm = FaceDirection.left ∧
    determineFaceDirection (scaleLm 3 leftLm) = determineFaceDirection leftLm := by
  have h := claim9_offset_scale leftLm
  exact ⟨by with_unfolding_all decide,
    h.2.1 (by with_unfolding_all decide) (by with_unfolding_all decide),
    h.2.2 3 (by norm_num)⟩

/-- Claim C10: every image appended by the auto-capture flow stores the
horizontally mirrored video frame — the `scale(-1,1)` plus
`translate(-width,0)` draw maps destination column `x` to source column
`width - 1 - x` — and this mirroring is the same for every step (the
capture path below is uniform in the session state, hence in the capture
position); mirroring is a genuine horizontal flip: width is preserved
and mirroring twice restores every in-range pixel. -/
theorem claim10_mirrored_capture (s : SessionState) (lm : FaceLandmarks68)
    (vid : VideoFrame) (now : ℤ) (hc : s.isCapturing = false)
    (hfire : determineFaceDirection lm = stepTarget s.currentStep ∧
      8 ≤ observeCount s.window (determineFaceDirection lm) ∧
      1500 < now - s.lastCaptureTime ∧ s.currentStep ≠ Step.complete) :
    (tick s (TickInput.oneFace lm vid now true)).capturedImages =
      s.capturedImages ++
        [⟨mirrorFrame vid, positionMap (determineFaceDirection lm)⟩] ∧
    (∀ x y : ℕ, (mirrorFrame vid).pix x y = vid.pix (vid.width - 1 - x) y) ∧
    (∀ x y : ℕ, x < vid.width →
      (mirrorFrame (mirrorFrame vid)).pix x y = vid.pix x y) ∧
    (mirrorFrame vid).width = vid.width := by
  have hg : determineFaceDirection lm = stepTarget s.currentStep ∧
      8 ≤ observeCount s.window (determineFaceDirection lm) ∧
      cooldownPassed now s.lastCaptureTime = true ∧ s.currentStep ≠ Step.complete :=
    ⟨hfire.1, hfire.2.1, (cooldownPassed_iff now s.lastCaptureTime).mpr hfire.2.2.1,
      hfire.2.2.2⟩
  rw [tick_oneFace_fire_ok s lm vid now hc hg]
  refine ⟨rfl, fun x y => rfl, fun x y hx => ?_, rfl⟩
  show vid.pix (vid.width - 1 - (vid.width - 1 - x)) y = vid.pix x y
  congr 1
  omega

theorem claim10_mirrored_capture_witness :
    (tick readyState (TickInput.oneFace frontLm vid1 3000 true)).capturedImages.map
        (fun im => im.position) = [Position.center] ∧
    (mirrorFrame vid1).pix 0 0 = 1 := by
  have h := claim10_mirrored_capture readyState frontLm vid1 3000 rfl
    (by with_unfolding_all decide)
  constructor
  · rw [h.1]
    with_unfolding_all decide
  · rw [h.2.1 0 0]
    with_unfolding_all decide

end FaceCapture
